import Mathlib

/-!
Verification of the spec of `ALLCools/_extract_allc.py` against a shallow
embedding of the source.

Conventions of the embedding:
* A tab-split ALLC line (`line.split('\t')` in the source) is a `List String`
  of fields, called `AllcFields`.
* Python `int(...)` is `toIntE` (an `Except` that fails on non-numeric text,
  like the `ValueError` raised by `int`); list indexing `l[i]` is `getF`
  (fails like `IndexError` when out of range).
* File handles are identified by their creation index; all file-system
  effects of a run are recorded in an explicit `ExtractTrace`.
* External collaborators that live in this repository but outside the given
  source file (`parse_mc_pattern`, `parse_chrom_size`, `genome_region_chunks`,
  the `open_allc` reader) are passed in as parameters, or modelled from the
  spec where noted.
-/

set_option autoImplicit false

namespace ExtractAllc

/-- A tab-split ALLC record line: the result of Python `line.split('\t')`. -/
abbrev AllcFields := List String

/-- Python list indexing `l[i]`: fails with an `IndexError` when out of range. -/
def getF (l : List String) (i : Nat) : Except String String :=
  match l.get? i with
  | some s => .ok s
  | none => .error "IndexError: list index out of range"

/-- Value of a decimal digit character. -/
def digitVal (c : Char) : Option Nat :=
  if c.isDigit then some (c.toNat - 48) else none

/-- Decimal value of a nonempty all-digit character list. -/
def natOfDigits : List Char → Option Nat
  | [] => none
  | cs => cs.foldl (fun acc c =>
      match acc, digitVal c with
      | some n, some d => some (n * 10 + d)
      | _, _ => none) (some 0)

/-- Python `int(s)` on a character list: an optional sign followed by digits. -/
def pyIntList : List Char → Option Int
  | [] => none
  | '-' :: rest => (natOfDigits rest).map (fun n => -(n : Int))
  | '+' :: rest => (natOfDigits rest).map (fun n => (n : Int))
  | cs => (natOfDigits cs).map (fun n => (n : Int))

/-- Python `int(s)`: fails with a `ValueError` on non-numeric text. -/
def toIntE (s : String) : Except String Int :=
  match pyIntList s.toList with
  | some i => .ok i
  | none => .error ("invalid literal for int: " ++ s)

/-- Python `str.lower()` (ASCII case folding, which is all the source uses). -/
def pyLower (s : String) : String :=
  String.mk (s.toList.map Char.toLower)

/-- Python `sep.join(parts)`. -/
def pyJoin (sep : String) (parts : List String) : String :=
  String.mk (((parts.map String.toList).intersperse sep.toList).flatten)

/-- Membership of a character in the character set of a Python strip-chars string. -/
def charIn (chars : String) (c : Char) : Bool :=
  chars.toList.contains c

/-- Python `s.lstrip(chars)`: drop leading characters belonging to `chars`. -/
def pyLstrip (s chars : String) : String :=
  String.mk (s.toList.dropWhile (charIn chars))

/-- Python `s.rstrip(chars)`: drop trailing characters belonging to `chars`. -/
def pyRstrip (s chars : String) : String :=
  String.mk ((s.toList.reverse.dropWhile (charIn chars)).reverse)

/-- Python `s.strip(chars)`. -/
def pyStrip (s chars : String) : String :=
  pyRstrip (pyLstrip s chars) chars

/-- Substring occurrence test on character lists. -/
def listSub (pat s : List Char) : Bool :=
  (List.range (s.length + 1)).any (fun i => pat.isPrefixOf (s.drop i))

/-- Python substring test `pat in s`. -/
def pyInStr (pat s : String) : Bool :=
  listSub pat.toList s.toList

/-! ## The strand collapser `_merge_cg_strand` (source lines 14-45)

The loop state is the pair `(prev_line, cur_chrom)`; both start as Python
`None`.  The input is the list of tab-split lines of the temporary file
(each line already stripped of its newline, as in the source), the output is
the list of tab-split lines written to `out_allc`. -/

/-- Loop state of `_merge_cg_strand`: `prev_line` and `cur_chrom`. -/
structure MergeState where
  prevLine : Option AllcFields
  curChrom : Option String
deriving DecidableEq, Repr

/-- One iteration of the `for line in allc` loop of `_merge_cg_strand`
(source lines 23-44), returning the updated state and the lines written
during the iteration.  Field accesses and `int` conversions fail exactly
where the Python expressions would raise. -/
def mergeStep (st : MergeState) (cur : AllcFields) : Except String (MergeState × List AllcFields) :=
  match getF cur 0 with
  | .error e => .error e
  | .ok curChrom0 =>
    if some curChrom0 ≠ st.curChrom then
      -- `if cur_line[0] != cur_chrom:` — flush prev_line if present, hold cur
      match st.prevLine with
      | some p => .ok (⟨some cur, some curChrom0⟩, [p])
      | none => .ok (⟨some cur, some curChrom0⟩, [])
    else
      match st.prevLine with
      | none => .ok (⟨some cur, st.curChrom⟩, [])
      | some p =>
        match (getF p 1).bind toIntE with
        | .error e => .error e
        | .ok pPos =>
          match (getF cur 1).bind toIntE with
          | .error e => .error e
          | .ok cPos =>
            if pPos + 1 = cPos then
              match getF p 2 with
              | .error e => .error e
              | .ok pStrand =>
                match getF cur 2 with
                | .error e => .error e
                | .ok cStrand =>
                  if pStrand ≠ cStrand then
                    -- merge: `prev_line[:4] + [str(sum mc), str(sum cov), '1']`
                    match (getF p 4).bind toIntE with
                    | .error e => .error e
                    | .ok pMc =>
                      match (getF cur 4).bind toIntE with
                      | .error e => .error e
                      | .ok cMc =>
                        match (getF p 5).bind toIntE with
                        | .error e => .error e
                        | .ok pCov =>
                          match (getF cur 5).bind toIntE with
                          | .error e => .error e
                          | .ok cCov =>
                            .ok (⟨none, st.curChrom⟩,
                              [p.take 4 ++ [toString (pMc + cMc), toString (pCov + cCov), "1"]])
                  else
                    .ok (⟨some cur, st.curChrom⟩, [p])
            else
              .ok (⟨some cur, st.curChrom⟩, [p])

/-- The whole `for` loop of `_merge_cg_strand`, threading the state and
concatenating the written lines. -/
def mergeRun (st : MergeState) : List AllcFields → Except String (MergeState × List AllcFields)
  | [] => .ok (st, [])
  | l :: ls =>
    match mergeStep st l with
    | .error e => .error e
    | .ok r =>
      match mergeRun r.1 ls with
      | .error e => .error e
      | .ok r2 => .ok (r2.1, r.2 ++ r2.2)

/-- `_merge_cg_strand` as a stream transformer: the lines written to the
output file.  The source performs no flush after the loop, so a record still
pending at end of input is discarded. -/
def mergeCGStrand (lines : List AllcFields) : Except String (List AllcFields) :=
  match mergeRun ⟨none, none⟩ lines with
  | .error e => .error e
  | .ok (_, out) => .ok out

/-- Modelled from the spec (section 4.2 open question): the alternative
collapser that additionally flushes a still-pending final record after the
stream ends.  Used only to compare against `mergeCGStrand`. -/
def mergeCGStrandFlushed (lines : List AllcFields) : Except String (List AllcFields) :=
  match mergeRun ⟨none, none⟩ lines with
  | .error e => .error e
  | .ok (st, out) => .ok (out ++ st.prevLine.toList)

/-! ## Parameter validation (source lines 48-77) -/

/-- `_check_strandness_parameter` (source lines 48-58): lowercases the token,
maps `both/b` to `Both`, `merge/m` to `MergeTmp`, `split/s` to `Split`, and
raises `ValueError` on anything else. -/
def checkStrandnessParameter (strandness : String) : Except String String :=
  let s := pyLower strandness
  if s = "both" ∨ s = "b" then .ok "Both"
  else if s = "merge" ∨ s = "m" then .ok "MergeTmp"
  else if s = "split" ∨ s = "s" then .ok "Split"
  else .error ("Unknown value for strandness: " ++ s)

/-- The two line-formatting functions returned by `_check_out_format_parameter`,
as a closed tag (the source returns the function itself; `formatLine` below
is the dispatch). -/
inductive OutFormat where
  | allc
  | bed5
deriving DecidableEq, Repr

/-- `_check_out_format_parameter` (source lines 61-77): lowercases the token
and returns the output suffix together with the line-formatting function,
raising `ValueError` on an unknown token. -/
def checkOutFormatParameter (outFormat : String) : Except String (String × OutFormat) :=
  let f := pyLower outFormat
  if f = "allc" then .ok ("allc.tsv.gz", OutFormat.allc)
  else if f = "bed5" then .ok ("bed5.bed.gz", OutFormat.bed5)
  else .error ("Unknown value for out_format: " ++ f)

/-- `_extract_allc_format` / `_extract_bed5_format` (source lines 62-69):
`allc` re-joins all fields with tabs (the newline travels inside the last
field, as in the source, where `line.split('\t')` keeps it); `bed5` picks
fields `[0, 1, 1, 4, 5]` (an `IndexError` on short lines) and appends a
newline. -/
def formatLine (fmt : OutFormat) (l : AllcFields) : Except String String :=
  match fmt with
  | .allc => .ok (pyJoin "\t" l)
  | .bed5 =>
    match getF l 0 with
    | .error e => .error e
    | .ok f0 =>
      match getF l 1 with
      | .error e => .error e
      | .ok f1 =>
        match getF l 4 with
        | .error e => .error e
        | .ok f4 =>
          match getF l 5 with
          | .error e => .error e
          | .ok f5 => .ok (pyJoin "\t" [f0, f1, f1, f4, f5] ++ "\n")

/-! ## Handle setup and the context router (source lines 225-257 and 276-298)

`context_handle` is a `defaultdict(list)`: looking up an absent key yields
the empty list (so the `except KeyError` in the scan loop is dead code).  We
record the routing table as an association list from routing keys to handle
indices (a handle's index is its position in `handle_collect`); lookup
collects every entry of a key, in insertion order, like repeated
`defaultdict` appends. -/

/-- A routing key: the bare context in `Both`/`MergeTmp` modes, or the
`(context, strand)` pair in `Split` mode. -/
abbrev RouteKey := Sum String (String × String)

/-- The state built by the handle-opening loop (source lines 227-257):
opened file paths in creation order (the handle with index `i` writes to the
`i`-th path), the collected `output_path_collect`, and the routing table. -/
structure HandleSetup where
  openedPaths : List String := []
  outputPathCollect : List String := []
  routing : List (RouteKey × Nat) := []
deriving DecidableEq, Repr

/-- One iteration of the `for mc_context in mc_contexts` handle-opening loop
(source lines 230-257). -/
def buildHandlesStep (pfx outSuffix strandessNorm : String)
    (parsePattern : String → List String) (hs : HandleSetup) (ctx : String) : HandleSetup :=
  let pats := parsePattern ctx
  if strandessNorm = "Split" then
    let wPath := pfx ++ "." ++ ctx ++ "-Watson." ++ outSuffix
    let cPath := pfx ++ "." ++ ctx ++ "-Crick." ++ outSuffix
    let wIdx := hs.openedPaths.length
    let cIdx := wIdx + 1
    { openedPaths := hs.openedPaths ++ [wPath, cPath],
      outputPathCollect := hs.outputPathCollect ++ [wPath, cPath],
      routing := hs.routing ++
        pats.flatMap (fun p => [(Sum.inr (p, "+"), wIdx), (Sum.inr (p, "-"), cIdx)]) }
  else
    let filePath := pfx ++ "." ++ ctx ++ "-" ++ strandessNorm ++ "." ++ outSuffix
    let collectPath :=
      if strandessNorm = "MergeTmp" then pfx ++ "." ++ ctx ++ "-Merge." ++ outSuffix
      else filePath
    let idx := hs.openedPaths.length
    { openedPaths := hs.openedPaths ++ [filePath],
      outputPathCollect := hs.outputPathCollect ++ [collectPath],
      routing := hs.routing ++ pats.map (fun p => (Sum.inl p, idx)) }

/-- The whole handle-opening loop (source lines 227-257). -/
def buildHandles (pfx outSuffix strandessNorm : String)
    (parsePattern : String → List String) (mcContexts : List String) : HandleSetup :=
  mcContexts.foldl (buildHandlesStep pfx outSuffix strandessNorm parsePattern) {}

/-- `defaultdict(list)` lookup over the recorded routing table: every handle
appended under this key, in order; `[]` when the key is absent. -/
def handleLookup (routing : List (RouteKey × Nat)) (k : RouteKey) : List Nat :=
  (routing.filter (fun e => decide (e.1 = k))).map (fun e => e.2)

/-- Routing key of the non-split scan loop (source line 296): `cur_line[3]`. -/
def keyBoth (l : AllcFields) : Except String RouteKey :=
  match getF l 3 with
  | .error e => .error e
  | .ok c => .ok (Sum.inl c)

/-- Routing key of the split scan loop (source line 286):
`(cur_line[3], cur_line[2])`. -/
def keySplit (l : AllcFields) : Except String RouteKey :=
  match getF l 3 with
  | .error e => .error e
  | .ok c =>
    match getF l 2 with
    | .error e => .error e
    | .ok s => .ok (Sum.inr (c, s))

/-- One iteration of the scan loop (source lines 280-298): skip the record
when `int(cur_line[5]) > cov_cutoff`; otherwise write the formatted line to
every handle routed for the key (none when the key is absent — the
`defaultdict` yields `[]`, so nothing is written and no error is raised).
Returns the `(handle, content)` writes of the iteration. -/
def routeLine (keyOf : AllcFields → Except String RouteKey) (handleOf : RouteKey → List Nat)
    (fmt : OutFormat) (covCutoff : Int) (l : AllcFields) :
    Except String (List (Nat × String)) :=
  match (getF l 5).bind toIntE with
  | .error e => .error e
  | .ok cov =>
    if covCutoff < cov then .ok []
    else
      match keyOf l with
      | .error e => .error e
      | .ok k => (handleOf k).mapM (fun h => (formatLine fmt l).map (fun s => (h, s)))

/-- The whole scan loop: the writes performed, and `some e` when the loop
aborted on an exception after the recorded writes (the source closes no
output handle in that case — there is no `try/finally` around the loop). -/
def scanAllc (keyOf : AllcFields → Except String RouteKey) (handleOf : RouteKey → List Nat)
    (fmt : OutFormat) (covCutoff : Int) : List AllcFields → List (Nat × String) × Option String
  | [] => ([], none)
  | l :: ls =>
    match routeLine keyOf handleOf fmt covCutoff l with
    | .error e => ([], some e)
    | .ok ws =>
      let rest := scanAllc keyOf handleOf fmt covCutoff ls
      (ws ++ rest.1, rest.2)

/-- The content written to handle `h` by a list of writes: the final content
of that output stream. -/
def handleContent (h : Nat) (ws : List (Nat × String)) : List String :=
  (ws.filter (fun w => decide (w.1 = h))).map (fun w => w.2)

/-- The cutoff filter's drop predicate (source lines 282 and 292): a record
whose parsed total-count exceeds the cutoff (a record whose count does not
parse is not dropped — it aborts the scan instead). -/
def droppedByCutoff (covCutoff : Int) (l : AllcFields) : Bool :=
  match (getF l 5).bind toIntE with
  | .ok c => decide (covCutoff < c)
  | .error _ => false

/-! ## `extract_allc` (source lines 161-327)

The run of `extract_allc` is recorded as an `ExtractTrace` of file-system
effects plus an `Except` result (the returned path list, or the propagated
exception).  The external collaborators appear as parameters:

* `readAllc region` — the lines that `open_allc(allc_path, region=region)`
  yields for the resolved region (tab-split, as in the scan loop);
* `parsePattern` — `parse_mc_pattern`, the pure pattern-to-context-set
  expansion (`utilities.py`, not under `src/`);
* `chromNames` — the keys of `parse_chrom_size(chrom_size_path)` when a
  `chrom_size_path` is given, `none` when `chrom_size_path` is `None`. -/

/-- A post-scan file-system action of `extract_allc` (source lines 302-326)
in execution order: the strand-collapse rewrite `_merge_cg_strand(src, dst)`,
`rm -f`, `mv src dst`, or a `tabix_allc` invocation. -/
inductive PostOp where
  | mergeCG (src dst : String)
  | remove (p : String)
  | move (src dst : String)
  | tabixOn (p : String)
deriving DecidableEq, Repr

/-- The observable effects of one `extract_allc` run: output paths opened for
writing (in creation order), the `(handle, content)` writes of the scan, the
handle-close calls performed (handle indices, in order), the post-scan
file-system actions, and whether the run delegated to
`_extract_allc_parallel`. -/
structure ExtractTrace where
  openedPaths : List String := []
  writes : List (Nat × String) := []
  closes : List Nat := []
  postOps : List PostOp := []
  parallelCalled : Bool := false
deriving DecidableEq, Repr

/-- Post-processing for one context (source lines 302-326): `Split` indexes
the Watson and Crick files; `MergeTmp` strand-collapses to `-Merge` and
removes the temporary for contexts containing `CG` under the `allc` format,
and otherwise renames the temporary to `-Both`, then indexes; `Both`
indexes directly. -/
def postProcessCtx (pfx outSuffix strandessNorm : String) (tabix : Bool) (ctx : String) :
    List PostOp :=
  if strandessNorm = "Split" then
    (if tabix then [PostOp.tabixOn (pfx ++ "." ++ ctx ++ "-Watson." ++ outSuffix)] else []) ++
    (if tabix then [PostOp.tabixOn (pfx ++ "." ++ ctx ++ "-Crick." ++ outSuffix)] else [])
  else if strandessNorm = "MergeTmp" then
    let inPath := pfx ++ "." ++ ctx ++ "-" ++ strandessNorm ++ "." ++ outSuffix
    if pyInStr "CG" ctx ∧ pyInStr "allc" outSuffix then
      let outPath := pfx ++ "." ++ ctx ++ "-Merge." ++ outSuffix
      [PostOp.mergeCG inPath outPath, PostOp.remove inPath] ++
        (if tabix then [PostOp.tabixOn outPath] else [])
    else
      let outPath := pfx ++ "." ++ ctx ++ "-Both." ++ outSuffix
      [PostOp.move inPath outPath] ++ (if tabix then [PostOp.tabixOn outPath] else [])
  else
    if tabix then [PostOp.tabixOn (pfx ++ "." ++ ctx ++ "-" ++ strandessNorm ++ "." ++ outSuffix)]
    else []

/-- The post-processing loop `for mc_context in mc_contexts` (source lines
302-326). -/
def postProcess (pfx outSuffix strandessNorm : String) (tabix : Bool)
    (mcContexts : List String) : List PostOp :=
  mcContexts.flatMap (postProcessCtx pfx outSuffix strandessNorm tabix)

/-- Region determination (source lines 212-215): an explicit region wins;
otherwise, when a chromosome-size table is available, the region becomes the
space-joined chromosome names (never `None`); only with neither does the
region stay `None`. -/
def resolveRegion (regionParam : Option String) (chromNames : Option (List String)) :
    Option String :=
  match regionParam with
  | some r => some r
  | none =>
    match chromNames with
    | some names => some (pyJoin " " names)
    | none => none

/-- The scan-and-close part of the non-parallel path (source lines 276-327),
after validation and handle opening: run the scan loop; on an exception the
opened handles are never closed (there is no `try/finally`); on normal
completion every handle is closed (lines 299-300) and the per-context
post-processing runs, and `output_path_collect` is returned. -/
def serialAfter (readAllc : Option String → List AllcFields) (pfx outSuffix : String)
    (strandessNorm : String) (fmt : OutFormat) (hs : HandleSetup) (region : Option String)
    (covCutoff : Int) (tabix : Bool) (mcContexts : List String) :
    ExtractTrace × Except String (List String) :=
  let keyOf := if strandessNorm = "Split" then keySplit else keyBoth
  let scanned := scanAllc keyOf (handleLookup hs.routing) fmt covCutoff (readAllc region)
  match scanned.2 with
  | some e => ({ openedPaths := hs.openedPaths, writes := scanned.1 }, .error e)
  | none =>
    ({ openedPaths := hs.openedPaths, writes := scanned.1,
       closes := List.range hs.openedPaths.length,
       postOps := postProcess pfx outSuffix strandessNorm tabix mcContexts },
     .ok hs.outputPathCollect)

/-- `extract_allc` on the non-parallel path (taken whenever `cpu <= 1` or the
resolved region is not `None`; also the code every parallel chunk worker
runs, since workers get `cpu=1` and an explicit region): validate the two
tokens (before any file is opened), open the handles, scan, close,
post-process. -/
def extractAllcSerial (readAllc : Option String → List AllcFields)
    (parsePattern : String → List String) (chromNames : Option (List String))
    (outputPfx : String) (mcContexts : List String) (strandness outFormat : String)
    (regionParam : Option String) (covCutoff : Int) (tabix : Bool) :
    ExtractTrace × Except String (List String) :=
  let region := resolveRegion regionParam chromNames
  let pfx := pyRstrip outputPfx "."
  match checkStrandnessParameter strandness with
  | .error e => ({}, .error e)
  | .ok strandessNorm =>
    match checkOutFormatParameter outFormat with
    | .error e => ({}, .error e)
    | .ok (outSuffix, fmt) =>
      serialAfter readAllc pfx outSuffix strandessNorm fmt
        (buildHandles pfx outSuffix strandessNorm parsePattern mcContexts)
        region covCutoff tabix mcContexts

/-- The fixed `parallel_chunk_size` (source line 209). -/
def parallelChunkSize : Nat := 100000000

/-- Modelled from the spec (sections 3 and 4.4): `genome_region_chunks`
(`utilities.py`, not under `src/`) partitions the genome described by the
chromosome-size table into contiguous region chunks of a target size,
combining small leftovers.  It needs the table: `extract_allc` only reaches
the parallel branch with `chrom_size_path = None` (any available table makes
the resolved region non-`None`), and parsing a `None` path fails.  The
chunk strings themselves are opaque region names here; we take one chunk per
chromosome-table entry, a legitimate instance of the spec's chunking. -/
def genomeRegionChunks (chromNames : Option (List String)) (_binLength : Nat) :
    Except String (List String) :=
  match chromNames with
  | none => .error "genome_region_chunks requires a chromosome size table (chrom_size_path is None)"
  | some names => .ok names

/-- Chunk-file bookkeeping of `_extract_allc_parallel` (source line 128):
`chunk_id, *full_suffix = path.lstrip(output_prefix).strip('.').split('.')`,
with the pandas `astype(int)` applied to the chunk id. -/
def parseChunkRecord (pfx path : String) : Except String (Int × String) :=
  match (pyStrip (pyLstrip path pfx) ".").splitOn "." with
  | [] => .error "IndexError: list index out of range"
  | chunkId :: rest =>
    match toIntE chunkId with
    | .error e => .error e
    | .ok cid => .ok (cid, pyJoin "." rest)

/-- Insertion into a lexicographically sorted list of strings. -/
def insertSorted (s : String) : List String → List String
  | [] => [s]
  | t :: ts => if s ≤ t then s :: t :: ts else t :: insertSorted s ts

/-- Lexicographic sort, as pandas `groupby` sorts its group keys. -/
def sortStrings (l : List String) : List String :=
  l.foldr insertSorted []

/-- The fan-out/fan-in of `_extract_allc_parallel` after chunking (source
lines 104-151): one `extract_allc` worker per chunk with `cpu=1`,
`tabix=False` and the chunk id embedded in the output prefix (each worker
revalidates the forwarded strandness token); any worker failure aborts the
whole operation, as `future.result()` re-raises.  The completed workers'
paths are grouped by their non-chunk-id suffix and one final path per
group, in sorted-suffix order, is produced (the per-group chunk-ordered
`_merge_gz_files` concatenation and the index scheduling act on these same
paths and add none). -/
def parallelAfterChunks (readAllc : Option String → List AllcFields)
    (parsePattern : String → List String) (chromNames : Option (List String)) (pfx : String)
    (mcContexts : List String) (strandnessArg outFormat : String) (covCutoff : Int)
    (regions : List String) : Except String (List String) :=
  let childResults := regions.enum.map (fun p =>
    (extractAllcSerial readAllc parsePattern chromNames
      (pfx ++ "." ++ toString p.1 ++ ".") mcContexts strandnessArg outFormat
      (some p.2) covCutoff false).2)
  match childResults.mapM (fun r => r) with
  | .error e => .error e
  | .ok lists =>
    match lists.flatten.mapM (parseChunkRecord pfx) with
    | .error e => .error e
    | .ok recs =>
      let suffixes := sortStrings ((recs.map (fun r => r.2)).eraseDups)
      .ok (suffixes.map (fun s => pfx ++ "." ++ s))

/-- `_extract_allc_parallel` (source lines 92-151): chunk the genome, then
run the fan-out/fan-in. -/
def extractAllcParallel (readAllc : Option String → List AllcFields)
    (parsePattern : String → List String) (chromNames : Option (List String))
    (outputPfx : String) (mcContexts : List String) (strandnessArg outFormat : String)
    (covCutoff : Int) : Except String (List String) :=
  let pfx := pyRstrip outputPfx "."
  match genomeRegionChunks chromNames parallelChunkSize with
  | .error e => .error e
  | .ok regions =>
    parallelAfterChunks readAllc parsePattern chromNames pfx mcContexts strandnessArg
      outFormat covCutoff regions

/-- `extract_allc` (source lines 161-327).  Region resolution and token
validation come first, then the handle-opening loop; only then is the
parallel branch tested (`cpu > 1 and region is None`, source line 263).  On
the parallel branch the function returns `_extract_allc_parallel`'s result
directly: the parent's freshly opened handles are never written, closed, or
post-processed.  Otherwise the non-parallel scan runs. -/
def extractAllc (readAllc : Option String → List AllcFields)
    (parsePattern : String → List String) (chromNames : Option (List String))
    (outputPfx : String) (mcContexts : List String) (strandness outFormat : String)
    (regionParam : Option String) (covCutoff : Int) (tabix : Bool) (cpu : Nat) :
    ExtractTrace × Except String (List String) :=
  let region := resolveRegion regionParam chromNames
  let pfx := pyRstrip outputPfx "."
  match checkStrandnessParameter strandness with
  | .error e => ({}, .error e)
  | .ok strandessNorm =>
    match checkOutFormatParameter outFormat with
    | .error e => ({}, .error e)
    | .ok (outSuffix, fmt) =>
      let hs := buildHandles pfx outSuffix strandessNorm parsePattern mcContexts
      if 1 < cpu ∧ region = none then
        ({ openedPaths := hs.openedPaths, parallelCalled := true },
         extractAllcParallel readAllc parsePattern chromNames pfx mcContexts strandessNorm
           outFormat covCutoff)
      else
        serialAfter readAllc pfx outSuffix strandessNorm fmt hs region covCutoff tabix mcContexts

/-- Replay of the post-scan file-system actions over the set of output files
on disk (the parent-opened files): which final files exist after
post-processing.  `mergeCG` creates its destination, `remove` and `move`
delete their source, `move` creates its destination; indexing adds no
(pre-index) output file. -/
def applyPostOp (files : List String) : PostOp → List String
  | .mergeCG _ dst => files ++ [dst]
  | .remove p => files.filter (fun f => decide (f ≠ p))
  | .move src dst => files.filter (fun f => decide (f ≠ src)) ++ [dst]
  | .tabixOn _ => files

/-- The output files existing after a run: the opened paths transformed by
the recorded post-processing actions. -/
def finalFiles (tr : ExtractTrace) : List String :=
  tr.postOps.foldl applyPostOp tr.openedPaths

/-! ## Concrete fixtures used by witnesses and counterexamples -/

/-- A well-formed ALLC line with total-count 100. -/
def demoLine100 : AllcFields := ["chr1", "3", "+", "CGA", "2", "100", "1\n"]

/-- A well-formed ALLC line with total-count 4. -/
def demoLine4 : AllcFields := ["chr1", "4", "+", "CGA", "1", "4", "1\n"]

/-- A well-formed ALLC line with context CCC (not routed by `demoHandles`). -/
def demoLineCCC : AllcFields := ["chr1", "5", "+", "CCC", "1", "3", "1\n"]

/-- A routing table sending context CGA to handle 0, as `defaultdict` lookup. -/
def demoHandles : RouteKey → List Nat :=
  handleLookup [(Sum.inl "CGA", 0)]

/-- A one-context `parse_mc_pattern` stand-in: a pattern matches exactly itself. -/
def demoParse (c : String) : List String := [c]

/-- A reader yielding one well-formed CGA line for any region. -/
def demoRead1 (_ : Option String) : List AllcFields :=
  [["chr1", "3", "+", "CGA", "2", "5", "1\n"]]

/-- A reader yielding one line whose total-count field is not numeric, making
`int(cur_line[5])` raise mid-scan. -/
def demoReadBad (_ : Option String) : List AllcFields :=
  [["chr1", "3", "+", "CGA", "2", "x", "1\n"]]

/-- A reader yielding no records. -/
def demoReadEmpty (_ : Option String) : List AllcFields := []

/-- The two-record strand-collapser input of the spec's merge scenario. -/
def c2Input : List AllcFields :=
  [["chr1", "3", "+", "CGA", "2", "5", "1"], ["chr1", "4", "-", "CGT", "1", "4", "1"]]

/-! ## Helper lemmas -/

/-- The scan loop over a concatenation: if the first part aborts, the scan is
that abort; otherwise the writes concatenate and the outcome is the second
part's. -/
theorem scanAllc_append (keyOf : AllcFields → Except String RouteKey)
    (handleOf : RouteKey → List Nat) (fmt : OutFormat) (covCutoff : Int)
    (a b : List AllcFields) :
    scanAllc keyOf handleOf fmt covCutoff (a ++ b) =
      if (scanAllc keyOf handleOf fmt covCutoff a).2 = none then
        ((scanAllc keyOf handleOf fmt covCutoff a).1 ++
            (scanAllc keyOf handleOf fmt covCutoff b).1,
          (scanAllc keyOf handleOf fmt covCutoff b).2)
      else scanAllc keyOf handleOf fmt covCutoff a := by
  induction a with
  | nil => simp [scanAllc]
  | cons l ls ih =>
    simp only [List.cons_append, scanAllc]
    cases hr : routeLine keyOf handleOf fmt covCutoff l with
    | error e => simp
    | ok ws =>
      dsimp only
      simp only [List.append_eq]
      rw [ih]
      by_cases h2 : (scanAllc keyOf handleOf fmt covCutoff ls).2 = none
      · simp [h2, List.append_assoc]
      · simp [h2]

/-- A record routed to the empty write list contributes nothing to the scan,
wherever it sits in the stream. -/
theorem scanAllc_skip (keyOf : AllcFields → Except String RouteKey)
    (handleOf : RouteKey → List Nat) (fmt : OutFormat) (covCutoff : Int)
    (pre post : List AllcFields) (r : AllcFields)
    (h : routeLine keyOf handleOf fmt covCutoff r = .ok []) :
    scanAllc keyOf handleOf fmt covCutoff (pre ++ r :: post) =
      scanAllc keyOf handleOf fmt covCutoff (pre ++ post) := by
  have h1 : scanAllc keyOf handleOf fmt covCutoff (r :: post) =
      scanAllc keyOf handleOf fmt covCutoff post := by
    simp [scanAllc, h]
  rw [scanAllc_append, scanAllc_append, h1]

/-- Per-stream content distributes over write concatenation. -/
theorem handleContent_append (h : Nat) (a b : List (Nat × String)) :
    handleContent h (a ++ b) = handleContent h a ++ handleContent h b := by
  simp [handleContent]

/-- After any successful collapser iteration the pending record is either
cleared or the record just consumed: `prev_line` is only ever set to
`cur_line` or `None`. -/
theorem mergeStep_prev (st : MergeState) (l : AllcFields) (res : MergeState × List AllcFields)
    (h : mergeStep st l = .ok res) :
    res.1.prevLine = none ∨ res.1.prevLine = some l := by
  unfold mergeStep at h
  repeat' split at h
  all_goals first
    | exact Except.noConfusion h
    | (injection h with h; subst h; simp)

/-- A record pending after a successful collapser run over a nonempty stream
is the stream's last record (over an empty stream it is the initial pending
record). -/
theorem mergeRun_last (lines : List AllcFields) :
    ∀ (st st' : MergeState) (out : List AllcFields) (p : AllcFields),
      mergeRun st lines = .ok (st', out) → st'.prevLine = some p →
      (lines = [] ∧ st.prevLine = some p) ∨ lines.getLast? = some p := by
  induction lines with
  | nil =>
    intro st st' out p h hp
    left
    unfold mergeRun at h
    injection h with h
    obtain ⟨h1, -⟩ := Prod.mk.injEq .. ▸ h
    exact ⟨rfl, by rw [← h1] at hp; exact hp⟩
  | cons l ls ih =>
    intro st st' out p h hp
    right
    unfold mergeRun at h
    cases hs : mergeStep st l with
    | error e => rw [hs] at h; exact Except.noConfusion h
    | ok r =>
      rw [hs] at h
      dsimp only at h
      cases hrun : mergeRun r.1 ls with
      | error e => rw [hrun] at h; exact Except.noConfusion h
      | ok r2 =>
        rw [hrun] at h
        dsimp only at h
        injection h with h
        have h1 : r2.1 = st' := congrArg Prod.fst h
        rcases ih r.1 r2.1 r2.2 p (by rw [hrun]) (by rw [h1]; exact hp) with ⟨hnil, hprev⟩ | hlast
        · subst hnil
          rcases mergeStep_prev st l r hs with hn | hsome
          · rw [hn] at hprev; exact absurd hprev (by simp)
          · rw [hsome] at hprev
            injection hprev with hpl
            simp [← hpl]
        · have hne : ls ≠ [] := by
            intro hh
            rw [hh] at hlast
            simp at hlast
          cases ls with
          | nil => exact absurd rfl hne
          | cons b t => rw [List.getLast?_cons_cons]; exact hlast

/-- Shape of the non-parallel scan-and-close phase: the opened paths are the
handle-opening loop's; on an exception no handle is closed; on normal
completion every handle is closed exactly once, in creation order. -/
theorem serialAfter_spec (readAllc : Option String → List AllcFields)
    (pfx outSuffix strandessNorm : String) (fmt : OutFormat) (hs : HandleSetup)
    (region : Option String) (covCutoff : Int) (tabix : Bool) (mcContexts : List String) :
    (serialAfter readAllc pfx outSuffix strandessNorm fmt hs region covCutoff
        tabix mcContexts).1.openedPaths = hs.openedPaths ∧
    ((∃ e, (serialAfter readAllc pfx outSuffix strandessNorm fmt hs region covCutoff
        tabix mcContexts).2 = .error e) →
      (serialAfter readAllc pfx outSuffix strandessNorm fmt hs region covCutoff
        tabix mcContexts).1.closes = []) ∧
    ((∃ ps, (serialAfter readAllc pfx outSuffix strandessNorm fmt hs region covCutoff
        tabix mcContexts).2 = .ok ps) →
      (serialAfter readAllc pfx outSuffix strandessNorm fmt hs region covCutoff
        tabix mcContexts).1.closes = List.range hs.openedPaths.length) := by
  unfold serialAfter
  dsimp only
  split
  · refine ⟨rfl, fun _ => rfl, ?_⟩
    rintro ⟨ps, hps⟩
    exact Except.noConfusion hps
  · refine ⟨rfl, ?_, fun _ => rfl⟩
    rintro ⟨e, he⟩
    exact Except.noConfusion he

/-! ## Claim theorems -/

/-- C2 counterexample: on the spec's merge scenario (`chr1 3 + CGA 2 5 1`
then `chr1 4 - CGT 1 4 1`, merge mode) the collapser's single output record
is `chr1 3 + CGA 3 9 1` — the pending record's chromosome, position, strand
and context fields with summed counts — not the claimed `chr1 3 CG 3 9 1`:
the strand field is kept and the context stays `CGA`. -/
theorem C2_counterexample :
    mergeCGStrand c2Input = .ok [["chr1", "3", "+", "CGA", "3", "9", "1"]] ∧
    (["chr1", "3", "+", "CGA", "3", "9", "1"] : AllcFields) ≠
      ["chr1", "3", "CG", "3", "9", "1"] :=
  ⟨rfl, by decide⟩

/-- C2 (amended): on the two adjacent opposite-strand records
`chr1 3 + CGA 2 5 1` / `chr1 4 - CGT 1 4 1` the collapser outputs exactly
one record, `chr1 3 + CGA 3 9 1`: the pending record's first four fields
(chromosome, position, strand, context), methylated-count 2+1=3,
total-count 5+4=9, and extra-flag "1". -/
theorem C2_merge_scenario :
    mergeCGStrand c2Input = .ok [["chr1", "3", "+", "CGA", "3", "9", "1"]] := rfl

/-- C3: a record whose total-count exceeds the coverage cutoff is written to
no output stream and raises no error (the scan with the record equals the
scan without it), and raising the cutoff drops monotonically fewer or equal
records. -/
theorem C3_cov_cutoff_filter (keyOf : AllcFields → Except String RouteKey)
    (handleOf : RouteKey → List Nat) (fmt : OutFormat) (covCutoff covCutoff' : Int)
    (pre post ls : List AllcFields) (r : AllcFields) (c : Int)
    (hc : (getF r 5).bind toIntE = .ok c) (hgt : covCutoff < c) :
    scanAllc keyOf handleOf fmt covCutoff (pre ++ r :: post) =
      scanAllc keyOf handleOf fmt covCutoff (pre ++ post) ∧
    (covCutoff ≤ covCutoff' →
      (ls.filter (droppedByCutoff covCutoff')).length ≤
        (ls.filter (droppedByCutoff covCutoff)).length) := by
  constructor
  · apply scanAllc_skip
    simp only [routeLine, hc]
    rw [if_pos hgt]
  · intro hle
    apply List.Sublist.length_le
    apply List.monotone_filter_right
    intro a ha
    unfold droppedByCutoff at ha ⊢
    cases hb : (getF a 5).bind toIntE with
    | error e => rw [hb] at ha; simp at ha
    | ok c0 =>
      rw [hb] at ha
      simp only [decide_eq_true_eq] at ha ⊢
      exact lt_of_le_of_lt hle ha

/-- C3 witness: with cutoff 50, the record with total-count 100 contributes
nothing to the scan, and raising the cutoff to 60 drops no more records. -/
theorem C3_cov_cutoff_filter_witness :
    scanAllc keyBoth demoHandles OutFormat.allc 50 ([] ++ demoLine100 :: [demoLine4]) =
      scanAllc keyBoth demoHandles OutFormat.allc 50 ([] ++ [demoLine4]) ∧
    ((50 : Int) ≤ 60 →
      (([demoLine100, demoLine4]).filter (droppedByCutoff 60)).length ≤
        (([demoLine100, demoLine4]).filter (droppedByCutoff 50)).length) :=
  C3_cov_cutoff_filter keyBoth demoHandles OutFormat.allc 50 60 [] [demoLine4]
    [demoLine100, demoLine4] demoLine100 100 rfl (by decide)

/-- C7: when a successful collapser run ends with a record still pending,
that record is the stream's final record, the collapser emits exactly the
loop's writes with no trailing flush, and the spec's flushed variant would
emit exactly one more record — the dropped pending one. -/
theorem C7_trailing_pending_dropped (lines : List AllcFields) (st' : MergeState)
    (out : List AllcFields) (p : AllcFields)
    (h : mergeRun ⟨none, none⟩ lines = .ok (st', out)) (hp : st'.prevLine = some p) :
    mergeCGStrand lines = .ok out ∧
    mergeCGStrandFlushed lines = .ok (out ++ [p]) ∧
    lines.getLast? = some p := by
  refine ⟨by simp [mergeCGStrand, h], by simp [mergeCGStrandFlushed, h, hp], ?_⟩
  rcases mergeRun_last lines ⟨none, none⟩ st' out p h hp with ⟨-, hprev⟩ | hlast
  · exact absurd hprev (by simp)
  · exact hlast

/-- C7 witness: a single-record stream leaves its record pending, the
collapser outputs nothing, and the flushed variant would output the record. -/
theorem C7_trailing_pending_dropped_witness :
    mergeCGStrand [["chr1", "1", "+", "CGA", "1", "1", "1"]] = .ok [] ∧
    mergeCGStrandFlushed [["chr1", "1", "+", "CGA", "1", "1", "1"]] =
      .ok ([] ++ [["chr1", "1", "+", "CGA", "1", "1", "1"]]) ∧
    ([["chr1", "1", "+", "CGA", "1", "1", "1"]] : List AllcFields).getLast? =
      some ["chr1", "1", "+", "CGA", "1", "1", "1"] :=
  C7_trailing_pending_dropped [["chr1", "1", "+", "CGA", "1", "1", "1"]]
    ⟨some ["chr1", "1", "+", "CGA", "1", "1", "1"], some "chr1"⟩ []
    ["chr1", "1", "+", "CGA", "1", "1", "1"] rfl rfl

/-- C8: a record that passes the coverage cutoff but whose routing key is
absent from the routing mapping (the `defaultdict` yields no handle) is
skipped silently: the scan with the record equals the scan without it — no
write and no error. -/
theorem C8_routing_miss_skipped (keyOf : AllcFields → Except String RouteKey)
    (handleOf : RouteKey → List Nat) (fmt : OutFormat) (covCutoff : Int)
    (pre post : List AllcFields) (r : AllcFields) (c : Int) (k : RouteKey)
    (hc : (getF r 5).bind toIntE = .ok c) (hle : c ≤ covCutoff)
    (hk : keyOf r = .ok k) (hmiss : handleOf k = []) :
    scanAllc keyOf handleOf fmt covCutoff (pre ++ r :: post) =
      scanAllc keyOf handleOf fmt covCutoff (pre ++ post) := by
  apply scanAllc_skip
  simp only [routeLine, hc, hk, hmiss]
  rw [if_neg (not_lt.mpr hle)]
  rfl

/-- C8 witness: the CCC record is not routed by `demoHandles` and
contributes nothing to the scan. -/
theorem C8_routing_miss_skipped_witness :
    scanAllc keyBoth demoHandles OutFormat.allc 9999 ([demoLine4] ++ demoLineCCC :: []) =
      scanAllc keyBoth demoHandles OutFormat.allc 9999 ([demoLine4] ++ []) :=
  C8_routing_miss_skipped keyBoth demoHandles OutFormat.allc 9999 [demoLine4] []
    demoLineCCC 3 (Sum.inl "CCC") rfl (by decide) rfl rfl

/-- C1 counterexample: a chunked-parallel run (`cpu = 2`, no explicit
region — which forces `chrom_size_path = None`, since any chromosome-size
table makes the resolved region non-`None`) aborts before any scan: chunking
fails without a table, no write and no post-processing happens, while the
`cpu = 1` run over the same input succeeds and produces output-stream
content — so the parallel path's final content is not byte-identical to the
single-pass extraction. -/
theorem C1_counterexample :
    (extractAllc demoRead1 demoParse none "out" ["CGA"] "both" "allc" none
        9999 false 2).2 =
      .error "genome_region_chunks requires a chromosome size table (chrom_size_path is None)" ∧
    (extractAllc demoRead1 demoParse none "out" ["CGA"] "both" "allc" none
        9999 false 2).1.writes = [] ∧
    (extractAllc demoRead1 demoParse none "out" ["CGA"] "both" "allc" none
        9999 false 2).1.postOps = [] ∧
    (extractAllc demoRead1 demoParse none "out" ["CGA"] "both" "allc" none
        9999 false 1).2 = .ok ["out.CGA-Both.allc.tsv.gz"] ∧
    handleContent 0 (extractAllc demoRead1 demoParse none "out" ["CGA"] "both" "allc" none
        9999 false 1).1.writes = ["chr1\t3\t+\tCGA\t2\t5\t1\n"] :=
  ⟨rfl, rfl, rfl, rfl, rfl⟩

/-- C1 (amended): the order-preserving heart of the invariant holds of the
scan core: whenever the chunk streams partition the input stream in order
and the whole scan succeeds, then for every output stream identity the
concatenation of the per-chunk contents, in chunk order, is identical to the
single-pass content.  (The full parallel path itself cannot exhibit this:
it is reachable only with no chromosome-size table and then aborts before
extracting, and merge strandness would make every chunk worker reject the
forwarded `MergeTmp` token.) -/
theorem C1_chunked_scan_equiv (keyOf : AllcFields → Except String RouteKey)
    (handleOf : RouteKey → List Nat) (fmt : OutFormat) (covCutoff : Int)
    (chunks : List (List AllcFields))
    (hok : (scanAllc keyOf handleOf fmt covCutoff chunks.flatten).2 = none) (h : Nat) :
    handleContent h (scanAllc keyOf handleOf fmt covCutoff chunks.flatten).1 =
      (chunks.map (fun chunk =>
        handleContent h (scanAllc keyOf handleOf fmt covCutoff chunk).1)).flatten := by
  revert hok
  induction chunks with
  | nil =>
    intro hok
    simp [scanAllc, handleContent]
  | cons cFirst rest ih =>
    intro hok
    rw [List.flatten_cons] at hok ⊢
    rw [scanAllc_append] at hok ⊢
    by_cases hc1 : (scanAllc keyOf handleOf fmt covCutoff cFirst).2 = none
    · rw [if_pos hc1] at hok ⊢
      dsimp only at hok ⊢
      rw [List.map_cons, List.flatten_cons, handleContent_append, ih hok]
    · rw [if_neg hc1] at hok
      exact absurd hok hc1

/-- C1 witness: two chunks whose concatenation is the input stream yield,
per output stream, the same content chunk-by-chunk as the single pass. -/
theorem C1_chunked_scan_equiv_witness :
    handleContent 0 (scanAllc keyBoth demoHandles OutFormat.allc 9999
        ([[demoLine4], [demoLineCCC]] : List (List AllcFields)).flatten).1 =
      (([[demoLine4], [demoLineCCC]] : List (List AllcFields)).map (fun chunk =>
        handleContent 0 (scanAllc keyBoth demoHandles OutFormat.allc 9999 chunk).1)).flatten :=
  C1_chunked_scan_equiv keyBoth demoHandles OutFormat.allc 9999
    [[demoLine4], [demoLineCCC]] rfl 0

/-- Unfolding of the strandness validator in terms of the lowered token. -/
theorem checkStrandness_eq (strandness : String) :
    checkStrandnessParameter strandness =
      (if pyLower strandness = "both" ∨ pyLower strandness = "b" then .ok "Both"
       else if pyLower strandness = "merge" ∨ pyLower strandness = "m" then .ok "MergeTmp"
       else if pyLower strandness = "split" ∨ pyLower strandness = "s" then .ok "Split"
       else .error ("Unknown value for strandness: " ++ pyLower strandness)) := rfl

/-- Unfolding of the output-format validator in terms of the lowered token. -/
theorem checkOutFormat_eq (outFormat : String) :
    checkOutFormatParameter outFormat =
      (if pyLower outFormat = "allc" then .ok ("allc.tsv.gz", OutFormat.allc)
       else if pyLower outFormat = "bed5" then .ok ("bed5.bed.gz", OutFormat.bed5)
       else .error ("Unknown value for out_format: " ++ pyLower outFormat)) := rfl

/-- C4 counterexample: a scan aborted by a mid-scan exception (here the
non-numeric total-count field makes `int(cur_line[5])` raise) leaves the
opened output handle unclosed: the close loop runs only after a normal
scan, so "closed exactly once even on early loop exit" fails on the code. -/
theorem C4_counterexample :
    (extractAllc demoReadBad demoParse none "out" ["CGA"] "both" "allc" (some "chr1")
        9999 false 1).1.openedPaths = ["out.CGA-Both.allc.tsv.gz"] ∧
    (extractAllc demoReadBad demoParse none "out" ["CGA"] "both" "allc" (some "chr1")
        9999 false 1).1.closes = [] ∧
    (extractAllc demoReadBad demoParse none "out" ["CGA"] "both" "allc" (some "chr1")
        9999 false 1).2 = .error "invalid literal for int: x" :=
  ⟨rfl, rfl, rfl⟩

/-- C4 (amended): on the non-parallel path, when the scan completes normally
(including when no record matched) every opened handle is closed exactly
once, in creation order; when the run aborts — at validation or mid-scan —
no handle is closed. -/
theorem C4_close_discipline (readAllc : Option String → List AllcFields)
    (parsePattern : String → List String) (chromNames : Option (List String))
    (outputPfx : String) (mcContexts : List String) (strandness outFormat : String)
    (regionParam : Option String) (covCutoff : Int) (tabix : Bool) :
    ((∃ ps, (extractAllcSerial readAllc parsePattern chromNames outputPfx mcContexts
        strandness outFormat regionParam covCutoff tabix).2 = Except.ok ps) →
      (extractAllcSerial readAllc parsePattern chromNames outputPfx mcContexts
        strandness outFormat regionParam covCutoff tabix).1.closes =
        List.range (extractAllcSerial readAllc parsePattern chromNames outputPfx mcContexts
          strandness outFormat regionParam covCutoff tabix).1.openedPaths.length) ∧
    ((∃ e, (extractAllcSerial readAllc parsePattern chromNames outputPfx mcContexts
        strandness outFormat regionParam covCutoff tabix).2 = Except.error e) →
      (extractAllcSerial readAllc parsePattern chromNames outputPfx mcContexts
        strandness outFormat regionParam covCutoff tabix).1.closes = []) := by
  cases h1 : checkStrandnessParameter strandness with
  | error e1 =>
    constructor
    · rintro ⟨ps, hps⟩
      simp only [extractAllcSerial, h1] at hps
      exact Except.noConfusion hps
    · intro _
      simp [extractAllcSerial, h1]
  | ok sn =>
    cases h2 : checkOutFormatParameter outFormat with
    | error e2 =>
      constructor
      · rintro ⟨ps, hps⟩
        simp only [extractAllcSerial, h1, h2] at hps
        exact Except.noConfusion hps
      · intro _
        simp [extractAllcSerial, h1, h2]
    | ok pr =>
      obtain ⟨outSuffix, fmt⟩ := pr
      have hser : extractAllcSerial readAllc parsePattern chromNames outputPfx mcContexts
          strandness outFormat regionParam covCutoff tabix =
          serialAfter readAllc (pyRstrip outputPfx ".") outSuffix sn fmt
            (buildHandles (pyRstrip outputPfx ".") outSuffix sn parsePattern mcContexts)
            (resolveRegion regionParam chromNames) covCutoff tabix mcContexts := by
        simp [extractAllcSerial, h1, h2]
      rw [hser]
      obtain ⟨ho, herr, hok⟩ := serialAfter_spec readAllc (pyRstrip outputPfx ".") outSuffix sn
        fmt (buildHandles (pyRstrip outputPfx ".") outSuffix sn parsePattern mcContexts)
        (resolveRegion regionParam chromNames) covCutoff tabix mcContexts
      constructor
      · intro hex
        rw [ho, hok hex]
      · exact herr

/-- C4 witness: a normally completing run closes its single handle exactly
once. -/
theorem C4_close_discipline_witness :
    (extractAllcSerial demoRead1 demoParse none "out" ["CGA"] "both" "allc" (some "chr1")
        9999 false).1.closes =
      List.range (extractAllcSerial demoRead1 demoParse none "out" ["CGA"] "both" "allc"
        (some "chr1") 9999 false).1.openedPaths.length :=
  (C4_close_discipline demoRead1 demoParse none "out" ["CGA"] "both" "allc" (some "chr1")
    9999 false).1 ⟨["out.CGA-Both.allc.tsv.gz"], rfl⟩

/-- C5 (code bug): in merge mode with a context not containing "CG" the run
returns the `-Merge` path collected at handle-opening time, but
post-processing renames the temporary to `-Both`, so the returned path is
not among the files that exist after post-processing. -/
theorem C5_return_path_mismatch :
    (extractAllc demoReadEmpty demoParse none "out" ["CCC"] "merge" "allc" (some "chr1")
        9999 false 1).2 = .ok ["out.CCC-Merge.allc.tsv.gz"] ∧
    finalFiles (extractAllc demoReadEmpty demoParse none "out" ["CCC"] "merge" "allc"
        (some "chr1") 9999 false 1).1 = ["out.CCC-Both.allc.tsv.gz"] ∧
    "out.CCC-Merge.allc.tsv.gz" ∉
      finalFiles (extractAllc demoReadEmpty demoParse none "out" ["CCC"] "merge" "allc"
        (some "chr1") 9999 false 1).1 :=
  ⟨rfl, rfl, by decide⟩

/-- C6 counterexample: the token "BOTH" lies outside
`{both, b, merge, m, split, s}` yet raises no error — the validator
lowercases before checking, so the claim's case-sensitive reading fails. -/
theorem C6_counterexample :
    (extractAllc demoReadEmpty demoParse none "out" [] "BOTH" "allc" (some "chr1")
        9999 false 1).2 = .ok [] ∧
    "BOTH" ∉ (["both", "b", "merge", "m", "split", "s"] : List String) :=
  ⟨rfl, by decide⟩

/-- C6 (amended): a strandness token whose lowercase form lies outside
`{both, b, merge, m, split, s}`, or (with valid strandness) an
output-format token whose lowercase form lies outside `{allc, bed5}`, makes
`extract_allc` raise the naming `ValueError` with a completely empty effect
trace: no file opened, nothing written, closed, or post-processed. -/
theorem C6_invalid_token_rejected (readAllc : Option String → List AllcFields)
    (parsePattern : String → List String) (chromNames : Option (List String))
    (outputPfx : String) (mcContexts : List String) (strandness outFormat : String)
    (regionParam : Option String) (covCutoff : Int) (tabix : Bool) (cpu : Nat) :
    (pyLower strandness ∉ (["both", "b", "merge", "m", "split", "s"] : List String) →
      extractAllc readAllc parsePattern chromNames outputPfx mcContexts strandness outFormat
          regionParam covCutoff tabix cpu =
        ({}, .error ("Unknown value for strandness: " ++ pyLower strandness))) ∧
    (pyLower outFormat ∉ (["allc", "bed5"] : List String) →
      pyLower strandness ∈ (["both", "b", "merge", "m", "split", "s"] : List String) →
      extractAllc readAllc parsePattern chromNames outputPfx mcContexts strandness outFormat
          regionParam covCutoff tabix cpu =
        ({}, .error ("Unknown value for out_format: " ++ pyLower outFormat))) := by
  constructor
  · intro hnot
    simp only [List.mem_cons, List.not_mem_nil, or_false, not_or] at hnot
    obtain ⟨n1, n2, n3, n4, n5, n6⟩ := hnot
    have h1 : checkStrandnessParameter strandness =
        .error ("Unknown value for strandness: " ++ pyLower strandness) := by
      rw [checkStrandness_eq, if_neg (not_or.mpr ⟨n1, n2⟩), if_neg (not_or.mpr ⟨n3, n4⟩),
        if_neg (not_or.mpr ⟨n5, n6⟩)]
    simp [extractAllc, h1]
  · intro hbad hmem
    simp only [List.mem_cons, List.not_mem_nil, or_false, not_or] at hbad hmem
    obtain ⟨m1, m2⟩ := hbad
    have h1 : ∃ sn, checkStrandnessParameter strandness = .ok sn := by
      rcases hmem with h | h | h | h | h | h
      · exact ⟨"Both", by rw [checkStrandness_eq, h]; rfl⟩
      · exact ⟨"Both", by rw [checkStrandness_eq, h]; rfl⟩
      · exact ⟨"MergeTmp", by rw [checkStrandness_eq, h]; rfl⟩
      · exact ⟨"MergeTmp", by rw [checkStrandness_eq, h]; rfl⟩
      · exact ⟨"Split", by rw [checkStrandness_eq, h]; rfl⟩
      · exact ⟨"Split", by rw [checkStrandness_eq, h]; rfl⟩
    obtain ⟨sn, h1⟩ := h1
    have h2 : checkOutFormatParameter outFormat =
        .error ("Unknown value for out_format: " ++ pyLower outFormat) := by
      rw [checkOutFormat_eq, if_neg m1, if_neg m2]
    simp [extractAllc, h1, h2]

/-- C6 witness: the unknown tokens "xx" and "tsv" are rejected with an empty
effect trace. -/
theorem C6_invalid_token_rejected_witness :
    extractAllc demoReadEmpty demoParse none "out" [] "xx" "allc" (some "chr1")
        9999 false 1 =
      ({}, .error ("Unknown value for strandness: " ++ pyLower "xx")) ∧
    extractAllc demoReadEmpty demoParse none "out" [] "both" "tsv" (some "chr1")
        9999 false 1 =
      ({}, .error ("Unknown value for out_format: " ++ pyLower "tsv")) :=
  ⟨(C6_invalid_token_rejected demoReadEmpty demoParse none "out" [] "xx" "allc"
      (some "chr1") 9999 false 1).1 (by decide),
   (C6_invalid_token_rejected demoReadEmpty demoParse none "out" [] "both" "tsv"
      (some "chr1") 9999 false 1).2 (by decide) (by decide)⟩

/-- C9 counterexample: with merge strandness, `cpu = 2` and no explicit
region — but a chromosome-size table present, as in every normal call — the
region is resolved to the chromosome list, the parallel branch is not
taken, and the run succeeds with no error. -/
theorem C9_counterexample :
    (extractAllc demoRead1 demoParse (some ["chr1"]) "out" ["CGA"] "merge" "allc" none
        9999 false 2).2 = .ok ["out.CGA-Merge.allc.tsv.gz"] ∧
    (extractAllc demoRead1 demoParse (some ["chr1"]) "out" ["CGA"] "merge" "allc" none
        9999 false 2).1.parallelCalled = false :=
  ⟨rfl, rfl⟩

/-- C9 (amended): merge strandness is normalized to `MergeTmp` before the
parallel branch; with `cpu > 1` and the region resolved to `None` (which
requires the chromosome-size table to be absent) the parallel orchestrator
is engaged and the operation raises — chunking already fails without a
table — and any chunk worker would reject the forwarded `MergeTmp` token,
since the child-side validator maps it to the `mergetmp` `ValueError`. -/
theorem C9_merge_parallel_rejected (readAllc : Option String → List AllcFields)
    (parsePattern : String → List String) (outputPfx : String) (mcContexts : List String)
    (outFormat : String) (covCutoff : Int) (tabix : Bool) (cpu : Nat)
    (hcpu : 1 < cpu) (hfmt : pyLower outFormat ∈ (["allc", "bed5"] : List String)) :
    checkStrandnessParameter "merge" = .ok "MergeTmp" ∧
    (extractAllc readAllc parsePattern none outputPfx mcContexts "merge" outFormat none
        covCutoff tabix cpu).2 =
      .error "genome_region_chunks requires a chromosome size table (chrom_size_path is None)" ∧
    (extractAllc readAllc parsePattern none outputPfx mcContexts "merge" outFormat none
        covCutoff tabix cpu).1.parallelCalled = true ∧
    (∀ (readAllc2 : Option String → List AllcFields) (parsePattern2 : String → List String)
        (chromNames2 : Option (List String)) (pfx2 : String) (mcContexts2 : List String)
        (outFormat2 : String) (regionParam2 : Option String) (covCutoff2 : Int) (tabix2 : Bool),
      extractAllcSerial readAllc2 parsePattern2 chromNames2 pfx2 mcContexts2 "MergeTmp"
          outFormat2 regionParam2 covCutoff2 tabix2 =
        ({}, .error "Unknown value for strandness: mergetmp")) := by
  have hm : checkStrandnessParameter "merge" = .ok "MergeTmp" := rfl
  have hchild : ∀ (readAllc2 : Option String → List AllcFields)
      (parsePattern2 : String → List String) (chromNames2 : Option (List String))
      (pfx2 : String) (mcContexts2 : List String) (outFormat2 : String)
      (regionParam2 : Option String) (covCutoff2 : Int) (tabix2 : Bool),
      extractAllcSerial readAllc2 parsePattern2 chromNames2 pfx2 mcContexts2 "MergeTmp"
          outFormat2 regionParam2 covCutoff2 tabix2 =
        ({}, .error "Unknown value for strandness: mergetmp") := by
    intro readAllc2 parsePattern2 chromNames2 pfx2 mcContexts2 outFormat2 regionParam2
      covCutoff2 tabix2
    have hmt : checkStrandnessParameter "MergeTmp" =
        .error "Unknown value for strandness: mergetmp" := rfl
    simp [extractAllcSerial, hmt]
  simp only [List.mem_cons, List.not_mem_nil, or_false] at hfmt
  rcases hfmt with h | h
  · have hf : checkOutFormatParameter outFormat = .ok ("allc.tsv.gz", OutFormat.allc) := by
      rw [checkOutFormat_eq, h]; rfl
    have hrun : extractAllc readAllc parsePattern none outputPfx mcContexts "merge" outFormat
        none covCutoff tabix cpu =
        ({ openedPaths := (buildHandles (pyRstrip outputPfx ".") "allc.tsv.gz" "MergeTmp"
              parsePattern mcContexts).openedPaths, parallelCalled := true },
         .error "genome_region_chunks requires a chromosome size table (chrom_size_path is None)") := by
      simp [extractAllc, hm, hf, hcpu, resolveRegion, extractAllcParallel, genomeRegionChunks]
    exact ⟨hm, by rw [hrun], by rw [hrun], hchild⟩
  · have hf : checkOutFormatParameter outFormat = .ok ("bed5.bed.gz", OutFormat.bed5) := by
      rw [checkOutFormat_eq, h]; rfl
    have hrun : extractAllc readAllc parsePattern none outputPfx mcContexts "merge" outFormat
        none covCutoff tabix cpu =
        ({ openedPaths := (buildHandles (pyRstrip outputPfx ".") "bed5.bed.gz" "MergeTmp"
              parsePattern mcContexts).openedPaths, parallelCalled := true },
         .error "genome_region_chunks requires a chromosome size table (chrom_size_path is None)") := by
      simp [extractAllc, hm, hf, hcpu, resolveRegion, extractAllcParallel, genomeRegionChunks]
    exact ⟨hm, by rw [hrun], by rw [hrun], hchild⟩

/-- C9 witness: the concrete merge-mode parallel call fails, and a chunk
worker invoked with the forwarded `MergeTmp` token fails at validation. -/
theorem C9_merge_parallel_rejected_witness :
    checkStrandnessParameter "merge" = .ok "MergeTmp" ∧
    (extractAllc demoRead1 demoParse none "out" ["CG"] "merge" "allc" none
        9999 false 2).2 =
      .error "genome_region_chunks requires a chromosome size table (chrom_size_path is None)" ∧
    (extractAllc demoRead1 demoParse none "out" ["CG"] "merge" "allc" none
        9999 false 2).1.parallelCalled = true ∧
    extractAllcSerial demoRead1 demoParse none "out.0." ["CG"] "MergeTmp" "allc"
        (some "chr1") 9999 false =
      ({}, .error "Unknown value for strandness: mergetmp") := by
  obtain ⟨w1, w2, w3, w4⟩ := C9_merge_parallel_rejected demoRead1 demoParse "out" ["CG"]
    "allc" 9999 false 2 (by decide) (by decide)
  exact ⟨w1, w2, w3, w4 demoRead1 demoParse none "out.0." ["CG"] "allc" (some "chr1") 9999 false⟩

/-- C10 counterexample: with `cpu = 2` and no explicit region but a
chromosome-size table present — every normal call — the parallel
orchestrator is not engaged and the handles are closed, so the claimed
"always delegates without closing" fails. -/
theorem C10_counterexample :
    (extractAllc demoRead1 demoParse (some ["chr1"]) "out" ["CGA"] "both" "allc" none
        9999 false 2).1.parallelCalled = false ∧
    (extractAllc demoRead1 demoParse (some ["chr1"]) "out" ["CGA"] "both" "allc" none
        9999 false 2).1.closes = [0] :=
  ⟨rfl, rfl⟩

/-- C10 (amended): whenever the parallel branch is actually taken
(`cpu > 1` and the region resolves to `None`, which requires no
chromosome-size table), `extract_allc` has already opened one write handle
per requested output path at the non-chunked per-context locations, then
delegates to the parallel orchestrator and never closes these parent
handles. -/
theorem C10_parallel_leaves_handles_open (readAllc : Option String → List AllcFields)
    (parsePattern : String → List String) (chromNames : Option (List String))
    (outputPfx : String) (mcContexts : List String) (strandness outFormat : String)
    (regionParam : Option String) (covCutoff : Int) (tabix : Bool) (cpu : Nat)
    (sn sfx : String) (fmt : OutFormat)
    (hsn : checkStrandnessParameter strandness = .ok sn)
    (hf : checkOutFormatParameter outFormat = .ok (sfx, fmt))
    (hcpu : 1 < cpu) (hr : resolveRegion regionParam chromNames = none) :
    (extractAllc readAllc parsePattern chromNames outputPfx mcContexts strandness outFormat
        regionParam covCutoff tabix cpu).1.openedPaths =
      (buildHandles (pyRstrip outputPfx ".") sfx sn parsePattern mcContexts).openedPaths ∧
    (extractAllc readAllc parsePattern chromNames outputPfx mcContexts strandness outFormat
        regionParam covCutoff tabix cpu).1.closes = [] ∧
    (extractAllc readAllc parsePattern chromNames outputPfx mcContexts strandness outFormat
        regionParam covCutoff tabix cpu).1.parallelCalled = true := by
  have hrun : extractAllc readAllc parsePattern chromNames outputPfx mcContexts strandness
      outFormat regionParam covCutoff tabix cpu =
      ({ openedPaths := (buildHandles (pyRstrip outputPfx ".") sfx sn parsePattern
            mcContexts).openedPaths, parallelCalled := true },
       extractAllcParallel readAllc parsePattern chromNames (pyRstrip outputPfx ".")
         mcContexts sn outFormat covCutoff) := by
    simp [extractAllc, hsn, hf, hr, hcpu]
  rw [hrun]
  exact ⟨rfl, rfl, rfl⟩

/-- C10 witness: the concrete reachable parallel call opens the per-context
handle, delegates, and closes nothing. -/
theorem C10_parallel_leaves_handles_open_witness :
    (extractAllc demoRead1 demoParse none "out" ["CGA"] "both" "allc" none
        9999 false 2).1.openedPaths =
      (buildHandles (pyRstrip "out" ".") "allc.tsv.gz" "Both" demoParse ["CGA"]).openedPaths ∧
    (extractAllc demoRead1 demoParse none "out" ["CGA"] "both" "allc" none
        9999 false 2).1.closes = [] ∧
    (extractAllc demoRead1 demoParse none "out" ["CGA"] "both" "allc" none
        9999 false 2).1.parallelCalled = true :=
  C10_parallel_leaves_handles_open demoRead1 demoParse none "out" ["CGA"] "both" "allc"
    none 9999 false 2 "Both" "allc.tsv.gz" OutFormat.allc rfl rfl (by decide) rfl

end ExtractAllc
